import Mathlib

/-!
Shallow embedding of `src/temperature_converter.py` (class `TemperatureConverter`).

Python floats are modelled as rationals (`ℚ`); the arithmetic in the source is
exact affine arithmetic on the values the claims quantify over, so `ℚ` is the
exact counterpart.  Python exceptions are modelled with `Except ConvError`.
Dynamically typed arguments of the generic dispatcher `convert` are modelled by
the `PyValue` type (covering the Python types the spec and tests exercise:
`int`, `bool`, `float`, `str`, `None`).  Python's `str.upper()` on the
single-character ASCII unit symbols is modelled by Lean's `String.toUpper`.
-/

namespace TemperatureConverter

/-- `ABSOLUTE_ZERO_CELSIUS = -273.15` from the source. -/
def ABSOLUTE_ZERO_CELSIUS : ℚ := -27315/100

/-- `ABSOLUTE_ZERO_FAHRENHEIT = -459.67` from the source. -/
def ABSOLUTE_ZERO_FAHRENHEIT : ℚ := -45967/100

/-- `ABSOLUTE_ZERO_KELVIN = 0.0` from the source. -/
def ABSOLUTE_ZERO_KELVIN : ℚ := 0

/-- The exceptions raised by the source: `TypeError` for non-numeric values
(`invalidArgumentType`, carrying the offending type name), `ValueError` for bad
unit symbols (`invalidUnit`, carrying the message) and `ValueError` for values
below absolute zero (`belowAbsoluteZero`, carrying the violated threshold and
its unit label, as the message in the source does). -/
inductive ConvError where
  | invalidArgumentType (tyName : String) : ConvError
  | invalidUnit (msg : String) : ConvError
  | belowAbsoluteZero (threshold : ℚ) (unitLabel : String) : ConvError
deriving DecidableEq, Repr

/-- `celsius_to_fahrenheit` (source lines 18-36). -/
def celsius_to_fahrenheit (celsius : ℚ) : Except ConvError ℚ :=
  if celsius < ABSOLUTE_ZERO_CELSIUS then
    .error (.belowAbsoluteZero ABSOLUTE_ZERO_CELSIUS "°C")
  else
    .ok (celsius * 9 / 5 + 32)

/-- `celsius_to_kelvin` (source lines 38-56). -/
def celsius_to_kelvin (celsius : ℚ) : Except ConvError ℚ :=
  if celsius < ABSOLUTE_ZERO_CELSIUS then
    .error (.belowAbsoluteZero ABSOLUTE_ZERO_CELSIUS "°C")
  else
    .ok (celsius + 27315/100)

/-- `fahrenheit_to_celsius` (source lines 58-76). -/
def fahrenheit_to_celsius (fahrenheit : ℚ) : Except ConvError ℚ :=
  if fahrenheit < ABSOLUTE_ZERO_FAHRENHEIT then
    .error (.belowAbsoluteZero ABSOLUTE_ZERO_FAHRENHEIT "°F")
  else
    .ok ((fahrenheit - 32) * 5 / 9)

/-- `fahrenheit_to_kelvin` (source lines 78-95): after its own guard it calls
`fahrenheit_to_celsius` and feeds the result to `celsius_to_kelvin`;
exceptions of the callees propagate, which `Except.bind` models. -/
def fahrenheit_to_kelvin (fahrenheit : ℚ) : Except ConvError ℚ :=
  if fahrenheit < ABSOLUTE_ZERO_FAHRENHEIT then
    .error (.belowAbsoluteZero ABSOLUTE_ZERO_FAHRENHEIT "°F")
  else
    (fahrenheit_to_celsius fahrenheit).bind celsius_to_kelvin

/-- `kelvin_to_celsius` (source lines 97-115). -/
def kelvin_to_celsius (kelvin : ℚ) : Except ConvError ℚ :=
  if kelvin < ABSOLUTE_ZERO_KELVIN then
    .error (.belowAbsoluteZero ABSOLUTE_ZERO_KELVIN "K")
  else
    .ok (kelvin - 27315/100)

/-- `kelvin_to_fahrenheit` (source lines 117-134): after its own guard it calls
`kelvin_to_celsius` and feeds the result to `celsius_to_fahrenheit`. -/
def kelvin_to_fahrenheit (kelvin : ℚ) : Except ConvError ℚ :=
  if kelvin < ABSOLUTE_ZERO_KELVIN then
    .error (.belowAbsoluteZero ABSOLUTE_ZERO_KELVIN "K")
  else
    (kelvin_to_celsius kelvin).bind celsius_to_fahrenheit

/-- The Python values the dispatcher `convert` can receive, with the runtime
type tags `isinstance` inspects.  `bool` is listed separately because in
Python it is a distinct type that is nevertheless a subtype of `int`. -/
inductive PyValue where
  | intV (n : ℤ) : PyValue
  | boolV (b : Bool) : PyValue
  | floatV (x : ℚ) : PyValue
  | strV (s : String) : PyValue
  | noneV : PyValue
deriving DecidableEq, Repr

/-- Python's `type(value).__name__` for the modelled values. -/
def PyValue.typeName : PyValue → String
  | .intV _ => "int"
  | .boolV _ => "bool"
  | .floatV _ => "float"
  | .strV _ => "str"
  | .noneV => "NoneType"

/-- `isinstance(value, (int, float))`: true for `int`, `float` and `bool`
(a Python `bool` is an instance of `int`), false for `str` and `None`. -/
def PyValue.isNumeric : PyValue → Bool
  | .intV _ => true
  | .boolV _ => true
  | .floatV _ => true
  | .strV _ => false
  | .noneV => false

/-- The numeric content of a numeric `PyValue`, as the arithmetic of the
pairwise operations sees it (`True` behaves as `1`, `False` as `0`);
the value is irrelevant for non-numeric arguments, which `convert`
rejects before any arithmetic. -/
def PyValue.toRat : PyValue → ℚ
  | .intV n => (n : ℚ)
  | .boolV b => if b then 1 else 0
  | .floatV x => x
  | .strV _ => 0
  | .noneV => 0

/-- The `conversions` dictionary of `convert` (source lines 170-177), with
`dict.get` modelled by `Option`. -/
def conversionsGet (fu tu : String) : Option (ℚ → Except ConvError ℚ) :=
  if fu = "C" ∧ tu = "F" then some celsius_to_fahrenheit
  else if fu = "C" ∧ tu = "K" then some celsius_to_kelvin
  else if fu = "F" ∧ tu = "C" then some fahrenheit_to_celsius
  else if fu = "F" ∧ tu = "K" then some fahrenheit_to_kelvin
  else if fu = "K" ∧ tu = "C" then some kelvin_to_celsius
  else if fu = "K" ∧ tu = "F" then some kelvin_to_fahrenheit
  else none

/-- `convert` (source lines 136-180): type check, uppercase normalization,
unit validation (source before target), identity fast path, then dispatch
through the `conversions` dictionary.  In the (unreachable) case where the
dictionary lookup misses, Python calls `None` and gets a `TypeError`,
modelled as `invalidArgumentType "NoneType"`. -/
def convert (value : PyValue) (from_unit to_unit : String) : Except ConvError PyValue :=
  if ¬ value.isNumeric then
    .error (.invalidArgumentType value.typeName)
  else
    let fu := from_unit.toUpper
    let tu := to_unit.toUpper
    if ¬ (fu = "C" ∨ fu = "F" ∨ fu = "K") then
      .error (.invalidUnit ("Invalid source unit: " ++ fu ++ ". Must be C, F, or K"))
    else if ¬ (tu = "C" ∨ tu = "F" ∨ tu = "K") then
      .error (.invalidUnit ("Invalid target unit: " ++ tu ++ ". Must be C, F, or K"))
    else if fu = tu then
      .ok value
    else
      match conversionsGet fu tu with
      | some f => (f value.toRat).map PyValue.floatV
      | none => .error (.invalidArgumentType "NoneType")

/-- `is_below_absolute_zero` (source lines 182-202). -/
def is_below_absolute_zero (value : ℚ) (unit : String) : Except ConvError Bool :=
  let u := unit.toUpper
  if u = "C" then .ok (decide (value < ABSOLUTE_ZERO_CELSIUS))
  else if u = "F" then .ok (decide (value < ABSOLUTE_ZERO_FAHRENHEIT))
  else if u = "K" then .ok (decide (value < ABSOLUTE_ZERO_KELVIN))
  else .error (.invalidUnit ("Invalid unit: " ++ u ++ ". Must be C, F, or K"))

/-- Does a result model a raised `BelowAbsoluteZero` error? -/
def failsBelowZero {α : Type} : Except ConvError α → Bool
  | .error (.belowAbsoluteZero _ _) => true
  | _ => false

/-- Does a result model a normal (non-raising) return? -/
def succeeds {α : Type} : Except ConvError α → Bool
  | .ok _ => true
  | _ => false

/-- Does a result model a raised `TypeError` (`InvalidArgumentType`)? -/
def failsInvalidArgumentType {α : Type} : Except ConvError α → Bool
  | .error (.invalidArgumentType _) => true
  | _ => false

/-! ### Helper lemmas, shared by the claim theorems below. -/

theorem toUpper_eq_mk (s : String) : s.toUpper = ⟨s.data.map Char.toUpper⟩ :=
  String.map_eq _ _

theorem charToNat_ofNat {n : Nat} (h : n.isValidChar) : (Char.ofNat n).toNat = n := by
  simp [Char.ofNat, dif_pos h, Char.ofNatAux, Char.toNat, UInt32.toNat,
    BitVec.toNat_ofNatLt]

theorem charToUpper_idem (c : Char) : c.toUpper.toUpper = c.toUpper := by
  by_cases h : c.toNat ≥ 97 ∧ c.toNat ≤ 122
  · have h1 : c.toUpper = Char.ofNat (c.toNat - 32) := by
      simp only [Char.toUpper]
      rw [if_pos h]
    have h2 : (Char.ofNat (c.toNat - 32)).toNat = c.toNat - 32 :=
      charToNat_ofNat (Or.inl (by omega))
    rw [h1]
    conv_lhs => simp only [Char.toUpper]
    rw [h2, if_neg (by omega)]
  · have h1 : c.toUpper = c := by
      simp only [Char.toUpper]
      rw [if_neg h]
    rw [h1, h1]

theorem toUpper_idem (s : String) : s.toUpper.toUpper = s.toUpper := by
  rw [toUpper_eq_mk, toUpper_eq_mk]
  refine congrArg String.mk ?_
  simp only [List.map_map]
  exact List.map_congr_left fun a _ => charToUpper_idem a

theorem toUpper_C : "C".toUpper = "C" := by rw [toUpper_eq_mk]; rfl

theorem toUpper_F : "F".toUpper = "F" := by rw [toUpper_eq_mk]; rfl

theorem toUpper_K : "K".toUpper = "K" := by rw [toUpper_eq_mk]; rfl

theorem toUpper_c_low : "c".toUpper = "C" := by rw [toUpper_eq_mk]; rfl

theorem toUpper_f_low : "f".toUpper = "F" := by rw [toUpper_eq_mk]; rfl

theorem toUpper_k_low : "k".toUpper = "K" := by rw [toUpper_eq_mk]; rfl

theorem toUpper_x_low : "x".toUpper = "X" := by rw [toUpper_eq_mk]; rfl

theorem toUpper_Z : "Z".toUpper = "Z" := by rw [toUpper_eq_mk]; rfl

theorem f2c_result_ge (v : ℚ) (h : ¬ v < ABSOLUTE_ZERO_FAHRENHEIT) :
    ¬ ((v - 32) * 5 / 9 < ABSOLUTE_ZERO_CELSIUS) := by
  simp only [ABSOLUTE_ZERO_FAHRENHEIT, ABSOLUTE_ZERO_CELSIUS, not_lt] at *
  linarith

theorem k2c_result_ge (v : ℚ) (h : ¬ v < ABSOLUTE_ZERO_KELVIN) :
    ¬ (v - 27315/100 < ABSOLUTE_ZERO_CELSIUS) := by
  simp only [ABSOLUTE_ZERO_KELVIN, ABSOLUTE_ZERO_CELSIUS, not_lt] at *
  linarith

/-- C1: every pairwise conversion operation fails with `BelowAbsoluteZero`
exactly when its input is strictly below the source unit's absolute-zero
threshold (-273.15 for Celsius, -459.67 for Fahrenheit, 0 for Kelvin), and
succeeds otherwise; in particular the boundary values themselves are valid:
`celsius_to_kelvin (-273.15)`, `fahrenheit_to_kelvin (-459.67)` and
`kelvin_to_celsius 0` all succeed. -/
theorem pairwise_belowAbsoluteZero_iff (v : ℚ) :
    (failsBelowZero (celsius_to_fahrenheit v) = true ↔ v < ABSOLUTE_ZERO_CELSIUS) ∧
    (succeeds (celsius_to_fahrenheit v) = true ↔ ¬ v < ABSOLUTE_ZERO_CELSIUS) ∧
    (failsBelowZero (celsius_to_kelvin v) = true ↔ v < ABSOLUTE_ZERO_CELSIUS) ∧
    (succeeds (celsius_to_kelvin v) = true ↔ ¬ v < ABSOLUTE_ZERO_CELSIUS) ∧
    (failsBelowZero (fahrenheit_to_celsius v) = true ↔ v < ABSOLUTE_ZERO_FAHRENHEIT) ∧
    (succeeds (fahrenheit_to_celsius v) = true ↔ ¬ v < ABSOLUTE_ZERO_FAHRENHEIT) ∧
    (failsBelowZero (fahrenheit_to_kelvin v) = true ↔ v < ABSOLUTE_ZERO_FAHRENHEIT) ∧
    (succeeds (fahrenheit_to_kelvin v) = true ↔ ¬ v < ABSOLUTE_ZERO_FAHRENHEIT) ∧
    (failsBelowZero (kelvin_to_celsius v) = true ↔ v < ABSOLUTE_ZERO_KELVIN) ∧
    (succeeds (kelvin_to_celsius v) = true ↔ ¬ v < ABSOLUTE_ZERO_KELVIN) ∧
    (failsBelowZero (kelvin_to_fahrenheit v) = true ↔ v < ABSOLUTE_ZERO_KELVIN) ∧
    (succeeds (kelvin_to_fahrenheit v) = true ↔ ¬ v < ABSOLUTE_ZERO_KELVIN) ∧
    succeeds (celsius_to_kelvin (-27315/100)) = true ∧
    succeeds (fahrenheit_to_kelvin (-45967/100)) = true ∧
    succeeds (kelvin_to_celsius 0) = true := by
  refine ⟨?_, ?_, ?_, ?_, ?_, ?_, ?_, ?_, ?_, ?_, ?_, ?_, ?_, ?_, ?_⟩
  · by_cases h : v < ABSOLUTE_ZERO_CELSIUS <;>
      simp [celsius_to_fahrenheit, h, failsBelowZero]
  · by_cases h : v < ABSOLUTE_ZERO_CELSIUS <;>
      simp [celsius_to_fahrenheit, h, succeeds]
  · by_cases h : v < ABSOLUTE_ZERO_CELSIUS <;>
      simp [celsius_to_kelvin, h, failsBelowZero]
  · by_cases h : v < ABSOLUTE_ZERO_CELSIUS <;>
      simp [celsius_to_kelvin, h, succeeds]
  · by_cases h : v < ABSOLUTE_ZERO_FAHRENHEIT <;>
      simp [fahrenheit_to_celsius, h, failsBelowZero]
  · by_cases h : v < ABSOLUTE_ZERO_FAHRENHEIT <;>
      simp [fahrenheit_to_celsius, h, succeeds]
  · by_cases h : v < ABSOLUTE_ZERO_FAHRENHEIT
    · simp [fahrenheit_to_kelvin, h, failsBelowZero]
    · simp [fahrenheit_to_kelvin, fahrenheit_to_celsius, celsius_to_kelvin, h,
        f2c_result_ge v h, failsBelowZero, Except.bind]
  · by_cases h : v < ABSOLUTE_ZERO_FAHRENHEIT
    · simp [fahrenheit_to_kelvin, h, succeeds]
    · simp [fahrenheit_to_kelvin, fahrenheit_to_celsius, celsius_to_kelvin, h,
        f2c_result_ge v h, succeeds, Except.bind]
  · by_cases h : v < ABSOLUTE_ZERO_KELVIN <;>
      simp [kelvin_to_celsius, h, failsBelowZero]
  · by_cases h : v < ABSOLUTE_ZERO_KELVIN <;>
      simp [kelvin_to_celsius, h, succeeds]
  · by_cases h : v < ABSOLUTE_ZERO_KELVIN
    · simp [kelvin_to_fahrenheit, h, failsBelowZero]
    · simp [kelvin_to_fahrenheit, kelvin_to_celsius, celsius_to_fahrenheit, h,
        k2c_result_ge v h, failsBelowZero, Except.bind]
  · by_cases h : v < ABSOLUTE_ZERO_KELVIN
    · simp [kelvin_to_fahrenheit, h, succeeds]
    · simp [kelvin_to_fahrenheit, kelvin_to_celsius, celsius_to_fahrenheit, h,
        k2c_result_ge v h, succeeds, Except.bind]
  · norm_num [celsius_to_kelvin, ABSOLUTE_ZERO_CELSIUS, succeeds]
  · norm_num [fahrenheit_to_kelvin, fahrenheit_to_celsius, celsius_to_kelvin,
      ABSOLUTE_ZERO_FAHRENHEIT, ABSOLUTE_ZERO_CELSIUS, succeeds, Except.bind]
  · norm_num [kelvin_to_celsius, ABSOLUTE_ZERO_KELVIN, succeeds]

/-- C3: under its precondition each direct pairwise operation returns the
spec's affine formula: `c * (9/5) + 32`, `c + 273.15`, `(f - 32) * (5/9)` and
`k - 273.15` respectively. -/
theorem pairwise_formulas (x : ℚ) :
    (ABSOLUTE_ZERO_CELSIUS ≤ x →
      celsius_to_fahrenheit x = .ok (x * (9/5) + 32) ∧
      celsius_to_kelvin x = .ok (x + 27315/100)) ∧
    (ABSOLUTE_ZERO_FAHRENHEIT ≤ x →
      fahrenheit_to_celsius x = .ok ((x - 32) * (5/9))) ∧
    (ABSOLUTE_ZERO_KELVIN ≤ x →
      kelvin_to_celsius x = .ok (x - 27315/100)) := by
  refine ⟨fun h => ⟨?_, ?_⟩, fun h => ?_, fun h => ?_⟩
  · rw [celsius_to_fahrenheit, if_neg (not_lt.mpr h)]
    congr 1
    ring
  · rw [celsius_to_kelvin, if_neg (not_lt.mpr h)]
  · rw [fahrenheit_to_celsius, if_neg (not_lt.mpr h)]
    congr 1
    ring
  · rw [kelvin_to_celsius, if_neg (not_lt.mpr h)]

/-- Witness for C3 at the spec's own test points: `celsius_to_fahrenheit 100 =
212 °F` and `kelvin_to_celsius 0 = -273.15 °C`. -/
theorem pairwise_formulas_witness :
    celsius_to_fahrenheit 100 = .ok 212 ∧ kelvin_to_celsius 0 = .ok (-27315/100) := by
  have h1 := (pairwise_formulas 100).1 (by norm_num [ABSOLUTE_ZERO_CELSIUS])
  have h2 := (pairwise_formulas 0).2.2 (by norm_num [ABSOLUTE_ZERO_KELVIN])
  refine ⟨?_, ?_⟩
  · rw [h1.1]
    norm_num
  · rw [h2]
    norm_num

/-- C5: `fahrenheit_to_kelvin` is the two-step composition of
`fahrenheit_to_celsius` with `celsius_to_kelvin`, and `kelvin_to_fahrenheit`
is the composition of `kelvin_to_celsius` with `celsius_to_fahrenheit`; for
inputs at or above the source threshold the composed result is returned. -/
theorem composed_conversions (x : ℚ) :
    (ABSOLUTE_ZERO_FAHRENHEIT ≤ x →
      fahrenheit_to_kelvin x = (fahrenheit_to_celsius x).bind celsius_to_kelvin ∧
      ∃ y, fahrenheit_to_kelvin x = .ok y) ∧
    (ABSOLUTE_ZERO_KELVIN ≤ x →
      kelvin_to_fahrenheit x = (kelvin_to_celsius x).bind celsius_to_fahrenheit ∧
      ∃ y, kelvin_to_fahrenheit x = .ok y) := by
  constructor
  · intro h
    have h' : ¬ x < ABSOLUTE_ZERO_FAHRENHEIT := not_lt.mpr h
    constructor
    · rw [fahrenheit_to_kelvin, if_neg h']
    · refine ⟨(x - 32) * 5 / 9 + 27315/100, ?_⟩
      rw [fahrenheit_to_kelvin, if_neg h', fahrenheit_to_celsius, if_neg h']
      simp [Except.bind, celsius_to_kelvin, f2c_result_ge x h']
  · intro h
    have h' : ¬ x < ABSOLUTE_ZERO_KELVIN := not_lt.mpr h
    constructor
    · rw [kelvin_to_fahrenheit, if_neg h']
    · refine ⟨(x - 27315/100) * 9 / 5 + 32, ?_⟩
      rw [kelvin_to_fahrenheit, if_neg h', kelvin_to_celsius, if_neg h']
      simp [Except.bind, celsius_to_fahrenheit, k2c_result_ge x h']

/-- Witness for C5 at the boundary inputs -459.67 °F and 0 K. -/
theorem composed_conversions_witness :
    (fahrenheit_to_kelvin (-45967/100) =
      (fahrenheit_to_celsius (-45967/100)).bind celsius_to_kelvin ∧
      ∃ y, fahrenheit_to_kelvin (-45967/100) = .ok y) ∧
    (kelvin_to_fahrenheit 0 =
      (kelvin_to_celsius 0).bind celsius_to_fahrenheit ∧
      ∃ y, kelvin_to_fahrenheit 0 = .ok y) :=
  ⟨(composed_conversions (-45967/100)).1 (by norm_num [ABSOLUTE_ZERO_FAHRENHEIT]),
   (composed_conversions 0).2 (by norm_num [ABSOLUTE_ZERO_KELVIN])⟩

/-- C6: round trips reproduce the input within tolerance `1e-6` (exactly, in
the rational model): Celsius → Fahrenheit → Celsius for `c ≥ -273.15`, and
Kelvin → Celsius → Kelvin for `k ≥ 0`. -/
theorem round_trips (x : ℚ) :
    (ABSOLUTE_ZERO_CELSIUS ≤ x →
      ∃ f c, celsius_to_fahrenheit x = .ok f ∧ fahrenheit_to_celsius f = .ok c ∧
        |c - x| ≤ 1/1000000) ∧
    (ABSOLUTE_ZERO_KELVIN ≤ x →
      ∃ c k, kelvin_to_celsius x = .ok c ∧ celsius_to_kelvin c = .ok k ∧
        |k - x| ≤ 1/1000000) := by
  constructor
  · intro h
    refine ⟨x * 9 / 5 + 32, (x * 9 / 5 + 32 - 32) * 5 / 9, ?_, ?_, ?_⟩
    · rw [celsius_to_fahrenheit, if_neg (not_lt.mpr h)]
    · rw [fahrenheit_to_celsius, if_neg ?_]
      simp only [ABSOLUTE_ZERO_CELSIUS] at h
      simp only [ABSOLUTE_ZERO_FAHRENHEIT, not_lt]
      linarith
    · have hx : (x * 9 / 5 + 32 - 32) * 5 / 9 = x := by ring
      rw [hx]
      simp
  · intro h
    refine ⟨x - 27315/100, x - 27315/100 + 27315/100, ?_, ?_, ?_⟩
    · rw [kelvin_to_celsius, if_neg (not_lt.mpr h)]
    · rw [celsius_to_kelvin, if_neg (k2c_result_ge x (not_lt.mpr h))]
    · have hx : x - 27315/100 + 27315/100 = x := by ring
      rw [hx]
      simp

/-- Witness for C6 at 100 °C and 100 K. -/
theorem round_trips_witness :
    (∃ f c, celsius_to_fahrenheit 100 = .ok f ∧ fahrenheit_to_celsius f = .ok c ∧
      |c - 100| ≤ 1/1000000) ∧
    (∃ c k, kelvin_to_celsius 100 = .ok c ∧ celsius_to_kelvin c = .ok k ∧
      |k - 100| ≤ 1/1000000) :=
  ⟨(round_trips 100).1 (by norm_num [ABSOLUTE_ZERO_CELSIUS]),
   (round_trips 100).2 (by norm_num [ABSOLUTE_ZERO_KELVIN])⟩

theorem convert_dispatch_eq (v : PyValue) (u1 u2 fu tu : String)
    (hnum : v.isNumeric = true) (h1 : u1.toUpper = fu) (h2 : u2.toUpper = tu)
    (g : ℚ → Except ConvError ℚ) (hg : conversionsGet fu tu = some g)
    (hv1 : fu = "C" ∨ fu = "F" ∨ fu = "K") (hv2 : tu = "C" ∨ tu = "F" ∨ tu = "K")
    (hne : fu ≠ tu) :
    convert v u1 u2 = (g v.toRat).map PyValue.floatV := by
  unfold convert
  rw [hnum, h1, h2]
  simp [not_not_intro hv1, not_not_intro hv2, hne, hg]

theorem dispatch_exists (v : PyValue) (u1 u2 : String) (hnum : v.isNumeric = true)
    (h1 : u1.toUpper = "C" ∨ u1.toUpper = "F" ∨ u1.toUpper = "K")
    (h2 : u2.toUpper = "C" ∨ u2.toUpper = "F" ∨ u2.toUpper = "K")
    (hne : u1.toUpper ≠ u2.toUpper) :
    ∃ g, conversionsGet u1.toUpper u2.toUpper = some g ∧
      convert v u1 u2 = (g v.toRat).map PyValue.floatV := by
  rcases h1 with h1|h1|h1 <;> rcases h2 with h2|h2|h2 <;> rw [h1, h2] at hne <;>
    rw [h1, h2]
  · exact absurd rfl hne
  · exact ⟨celsius_to_fahrenheit, by simp [conversionsGet],
      convert_dispatch_eq v u1 u2 "C" "F" hnum h1 h2 _ (by simp [conversionsGet])
        (by simp) (by simp) hne⟩
  · exact ⟨celsius_to_kelvin, by simp [conversionsGet],
      convert_dispatch_eq v u1 u2 "C" "K" hnum h1 h2 _ (by simp [conversionsGet])
        (by simp) (by simp) hne⟩
  · exact ⟨fahrenheit_to_celsius, by simp [conversionsGet],
      convert_dispatch_eq v u1 u2 "F" "C" hnum h1 h2 _ (by simp [conversionsGet])
        (by simp) (by simp) hne⟩
  · exact absurd rfl hne
  · exact ⟨fahrenheit_to_kelvin, by simp [conversionsGet],
      convert_dispatch_eq v u1 u2 "F" "K" hnum h1 h2 _ (by simp [conversionsGet])
        (by simp) (by simp) hne⟩
  · exact ⟨kelvin_to_celsius, by simp [conversionsGet],
      convert_dispatch_eq v u1 u2 "K" "C" hnum h1 h2 _ (by simp [conversionsGet])
        (by simp) (by simp) hne⟩
  · exact ⟨kelvin_to_fahrenheit, by simp [conversionsGet],
      convert_dispatch_eq v u1 u2 "K" "F" hnum h1 h2 _ (by simp [conversionsGet])
        (by simp) (by simp) hne⟩
  · exact absurd rfl hne

/-- C2: for every numeric value (including values strictly below every
absolute-zero threshold) and every valid unit symbol, `convert v u u` takes
the identity fast path and returns the value unchanged, with no
absolute-zero check. -/
theorem identity_fast_path (v : PyValue) (u : String) (hnum : v.isNumeric = true)
    (hu : u.toUpper = "C" ∨ u.toUpper = "F" ∨ u.toUpper = "K") :
    convert v u u = .ok v := by
  unfold convert
  rw [hnum]
  simp [not_not_intro hu]

/-- Witness for C2: -500 °C is far below absolute zero, yet the identity
conversion returns it unchanged. -/
theorem identity_fast_path_witness :
    convert (.floatV (-500)) "c" "c" = .ok (.floatV (-500)) :=
  identity_fast_path (.floatV (-500)) "c" rfl (Or.inl toUpper_c_low)

/-- C4: for a numeric value and distinct valid normalized unit symbols,
`convert` returns exactly the result of the matching entry of the
`conversions` dictionary applied to the pre-conversion value (so it fails
exactly when that pairwise operation fails). -/
theorem convert_refines_pairwise (v : PyValue) (u1 u2 : String)
    (hnum : v.isNumeric = true)
    (h1 : u1.toUpper = "C" ∨ u1.toUpper = "F" ∨ u1.toUpper = "K")
    (h2 : u2.toUpper = "C" ∨ u2.toUpper = "F" ∨ u2.toUpper = "K")
    (hne : u1.toUpper ≠ u2.toUpper) :
    ∃ g, conversionsGet u1.toUpper u2.toUpper = some g ∧
      convert v u1 u2 = (g v.toRat).map PyValue.floatV :=
  dispatch_exists v u1 u2 hnum h1 h2 hne

/-- Witness for C4 at `convert 100 C F`. -/
theorem convert_refines_pairwise_witness :
    ∃ g, conversionsGet "C".toUpper "F".toUpper = some g ∧
      convert (.floatV 100) "C" "F" = (g 100).map PyValue.floatV :=
  convert_refines_pairwise (.floatV 100) "C" "F" rfl (Or.inl toUpper_C)
    (Or.inr (Or.inl toUpper_F)) (by rw [toUpper_C, toUpper_F]; simp)

/-- C7: unit symbols are case-insensitive (`convert` behaves the same on the
uppercased symbols), and after normalization an invalid source unit is
reported (as `InvalidUnit`) before the target unit is even examined. -/
theorem case_insensitive_units (v : PyValue) (u1 u2 : String) :
    convert v u1 u2 = convert v u1.toUpper u2.toUpper ∧
    (v.isNumeric = true →
      (¬ (u1.toUpper = "C" ∨ u1.toUpper = "F" ∨ u1.toUpper = "K") →
        convert v u1 u2 = .error (.invalidUnit
          ("Invalid source unit: " ++ u1.toUpper ++ ". Must be C, F, or K"))) ∧
      ((u1.toUpper = "C" ∨ u1.toUpper = "F" ∨ u1.toUpper = "K") →
        ¬ (u2.toUpper = "C" ∨ u2.toUpper = "F" ∨ u2.toUpper = "K") →
        convert v u1 u2 = .error (.invalidUnit
          ("Invalid target unit: " ++ u2.toUpper ++ ". Must be C, F, or K")))) := by
  refine ⟨?_, fun hnum => ⟨fun hbad => ?_, fun hgood hbad => ?_⟩⟩
  · simp only [convert, toUpper_idem]
  · unfold convert
    rw [hnum]
    simp [hbad]
  · unfold convert
    rw [hnum]
    simp [not_not_intro hgood, hbad]

/-- Witness for C7: lowercase symbols convert like uppercase ones, a bad
source unit is reported as such, and a bad target unit likewise. -/
theorem case_insensitive_units_witness :
    convert (.floatV 0) "c" "f" = convert (.floatV 0) "C" "F" ∧
    convert (.floatV 100) "x" "F" = .error (.invalidUnit
      ("Invalid source unit: " ++ "X" ++ ". Must be C, F, or K")) ∧
    convert (.floatV 100) "C" "Z" = .error (.invalidUnit
      ("Invalid target unit: " ++ "Z" ++ ". Must be C, F, or K")) := by
  refine ⟨?_, ?_, ?_⟩
  · have h := (case_insensitive_units (.floatV 0) "c" "f").1
    rwa [toUpper_c_low, toUpper_f_low] at h
  · have h := ((case_insensitive_units (.floatV 100) "x" "F").2 rfl).1
      (by rw [toUpper_x_low]; simp)
    rwa [toUpper_x_low] at h
  · have h := ((case_insensitive_units (.floatV 100) "C" "Z").2 rfl).2
      (Or.inl toUpper_C) (by rw [toUpper_Z]; simp)
    rwa [toUpper_Z] at h

theorem noIAT_c2f (x : ℚ) :
    failsInvalidArgumentType (celsius_to_fahrenheit x) = false := by
  unfold celsius_to_fahrenheit
  split <;> rfl

theorem noIAT_c2k (x : ℚ) :
    failsInvalidArgumentType (celsius_to_kelvin x) = false := by
  unfold celsius_to_kelvin
  split <;> rfl

theorem noIAT_f2c (x : ℚ) :
    failsInvalidArgumentType (fahrenheit_to_celsius x) = false := by
  unfold fahrenheit_to_celsius
  split <;> rfl

theorem noIAT_f2k (x : ℚ) :
    failsInvalidArgumentType (fahrenheit_to_kelvin x) = false := by
  unfold fahrenheit_to_kelvin fahrenheit_to_celsius celsius_to_kelvin
  split_ifs
  · rfl
  · simp only [Except.bind]
    split <;> rfl

theorem noIAT_k2c (x : ℚ) :
    failsInvalidArgumentType (kelvin_to_celsius x) = false := by
  unfold kelvin_to_celsius
  split <;> rfl

theorem noIAT_k2f (x : ℚ) :
    failsInvalidArgumentType (kelvin_to_fahrenheit x) = false := by
  unfold kelvin_to_fahrenheit kelvin_to_celsius celsius_to_fahrenheit
  split_ifs
  · rfl
  · simp only [Except.bind]
    split <;> rfl

/-- C8: `convert` rejects every non-numeric value with `InvalidArgumentType`
(naming the offending type) before any unit is normalized or validated, and
the six direct pairwise operations never raise that error kind. -/
theorem non_numeric_rejected (v : PyValue) (u1 u2 : String)
    (h : v.isNumeric = false) :
    convert v u1 u2 = .error (.invalidArgumentType v.typeName) ∧
    ∀ x : ℚ,
      failsInvalidArgumentType (celsius_to_fahrenheit x) = false ∧
      failsInvalidArgumentType (celsius_to_kelvin x) = false ∧
      failsInvalidArgumentType (fahrenheit_to_celsius x) = false ∧
      failsInvalidArgumentType (fahrenheit_to_kelvin x) = false ∧
      failsInvalidArgumentType (kelvin_to_celsius x) = false ∧
      failsInvalidArgumentType (kelvin_to_fahrenheit x) = false := by
  constructor
  · unfold convert
    rw [h]
    simp
  · intro x
    exact ⟨noIAT_c2f x, noIAT_c2k x, noIAT_f2c x, noIAT_f2k x, noIAT_k2c x,
      noIAT_k2f x⟩

/-- Witness for C8: a textual value with invalid unit symbols still fails
with `InvalidArgumentType` (type name `str`), not `InvalidUnit`. -/
theorem non_numeric_rejected_witness :
    convert (.strV "100") "X" "Z" = .error (.invalidArgumentType "str") := by
  have h := (non_numeric_rejected (.strV "100") "X" "Z" rfl).1
  simpa using h

/-- C9: `is_below_absolute_zero` normalizes the unit to uppercase and returns
exactly whether the value is strictly below that unit's threshold (so each
threshold itself yields `false`), and fails with `InvalidUnit` when the
normalized symbol is not one of C, F, K. -/
theorem boundary_predicate (v : ℚ) (u : String) :
    (u.toUpper = "C" → is_below_absolute_zero v u =
      .ok (decide (v < ABSOLUTE_ZERO_CELSIUS))) ∧
    (u.toUpper = "F" → is_below_absolute_zero v u =
      .ok (decide (v < ABSOLUTE_ZERO_FAHRENHEIT))) ∧
    (u.toUpper = "K" → is_below_absolute_zero v u =
      .ok (decide (v < ABSOLUTE_ZERO_KELVIN))) ∧
    (¬ (u.toUpper = "C" ∨ u.toUpper = "F" ∨ u.toUpper = "K") →
      is_below_absolute_zero v u = .error (.invalidUnit
        ("Invalid unit: " ++ u.toUpper ++ ". Must be C, F, or K"))) ∧
    is_below_absolute_zero ABSOLUTE_ZERO_CELSIUS "C" = .ok false ∧
    is_below_absolute_zero ABSOLUTE_ZERO_FAHRENHEIT "F" = .ok false ∧
    is_below_absolute_zero ABSOLUTE_ZERO_KELVIN "K" = .ok false := by
  refine ⟨fun h => ?_, fun h => ?_, fun h => ?_, fun h => ?_, ?_, ?_, ?_⟩
  · unfold is_below_absolute_zero
    rw [h]
    simp
  · unfold is_below_absolute_zero
    rw [h]
    simp
  · unfold is_below_absolute_zero
    rw [h]
    simp
  · simp only [not_or] at h
    unfold is_below_absolute_zero
    rw [if_neg h.1, if_neg h.2.1, if_neg h.2.2]
  · unfold is_below_absolute_zero
    rw [toUpper_C]
    simp
  · unfold is_below_absolute_zero
    rw [toUpper_F]
    simp
  · unfold is_below_absolute_zero
    rw [toUpper_K]
    simp

/-- Witness for C9: -300 °C is below absolute zero, and an invalid unit is
rejected. -/
theorem boundary_predicate_witness :
    is_below_absolute_zero (-300) "C" = .ok true ∧
    is_below_absolute_zero 100 "x" = .error (.invalidUnit
      ("Invalid unit: " ++ "X" ++ ". Must be C, F, or K")) := by
  constructor
  · have h := (boundary_predicate (-300) "C").1 toUpper_C
    rw [h]
    simp only [Except.ok.injEq, decide_eq_true_eq]
    norm_num [ABSOLUTE_ZERO_CELSIUS]
  · have h := (boundary_predicate 100 "x").2.2.2.1 (by rw [toUpper_x_low]; simp)
    rwa [toUpper_x_low] at h

theorem fIAT_map (r : Except ConvError ℚ) :
    failsInvalidArgumentType (r.map PyValue.floatV) = failsInvalidArgumentType r := by
  cases r with
  | ok a => rfl
  | error e => cases e <;> rfl

theorem conversionsGet_noIAT (fu tu : String) (g : ℚ → Except ConvError ℚ)
    (hg : conversionsGet fu tu = some g) (x : ℚ) :
    failsInvalidArgumentType (g x) = false := by
  unfold conversionsGet at hg
  split_ifs at hg <;>
    first
      | exact Option.noConfusion hg
      | (injection hg with h
         subst h
         first
           | exact noIAT_c2f x
           | exact noIAT_c2k x
           | exact noIAT_f2c x
           | exact noIAT_f2k x
           | exact noIAT_k2c x
           | exact noIAT_k2f x)

/-- C10: Python `bool` is a subtype of `int`, so a boolean value passes the
dispatcher's `isinstance(value, (int, float))` check: with valid distinct
units `convert` never raises `InvalidArgumentType` on a boolean, converts it
exactly as the integer 0 or 1, and `convert True C F` returns 33.8. -/
theorem bool_passes_type_check (b : Bool) (u1 u2 : String)
    (h1 : u1.toUpper = "C" ∨ u1.toUpper = "F" ∨ u1.toUpper = "K")
    (h2 : u2.toUpper = "C" ∨ u2.toUpper = "F" ∨ u2.toUpper = "K")
    (hne : u1.toUpper ≠ u2.toUpper) :
    failsInvalidArgumentType (convert (.boolV b) u1 u2) = false ∧
    convert (.boolV b) u1 u2 = convert (.intV (if b then 1 else 0)) u1 u2 ∧
    convert (.boolV true) "C" "F" = .ok (.floatV (169/5)) := by
  obtain ⟨g, hg, e1⟩ := dispatch_exists (.boolV b) u1 u2 rfl h1 h2 hne
  obtain ⟨g', hg', e2⟩ := dispatch_exists (.intV (if b then 1 else 0)) u1 u2 rfl h1 h2 hne
  have hgg : g = g' := by
    rw [hg] at hg'
    exact Option.some.inj hg'
  have hrat : PyValue.toRat (.boolV b) = PyValue.toRat (.intV (if b then 1 else 0)) := by
    cases b <;> simp [PyValue.toRat]
  refine ⟨?_, ?_, ?_⟩
  · rw [e1, fIAT_map]
    exact conversionsGet_noIAT _ _ g hg _
  · rw [e1, e2, hgg, hrat]
  · obtain ⟨g2, hg2, e3⟩ := dispatch_exists (.boolV true) "C" "F" rfl
      (Or.inl toUpper_C) (Or.inr (Or.inl toUpper_F)) (by rw [toUpper_C, toUpper_F]; simp)
    rw [toUpper_C, toUpper_F] at hg2
    have hc : conversionsGet "C" "F" = some celsius_to_fahrenheit := by
      simp [conversionsGet]
    rw [hc] at hg2
    obtain rfl := Option.some.inj hg2
    rw [e3]
    have : PyValue.toRat (.boolV true) = 1 := rfl
    rw [this]
    rw [celsius_to_fahrenheit, if_neg (by norm_num [ABSOLUTE_ZERO_CELSIUS])]
    norm_num [Except.map]

/-- Witness for C10 with `True`, source unit lowercase `c`, target `K`. -/
theorem bool_passes_type_check_witness :
    failsInvalidArgumentType (convert (.boolV true) "c" "K") = false ∧
    convert (.boolV true) "c" "K" = convert (.intV 1) "c" "K" ∧
    convert (.boolV true) "C" "F" = .ok (.floatV (169/5)) := by
  have h := bool_passes_type_check true "c" "K" (Or.inl toUpper_c_low)
    (Or.inr (Or.inr toUpper_K)) (by rw [toUpper_c_low, toUpper_K]; simp)
  simpa using h

end TemperatureConverter
